import Mathlib

/-!
Verification development for the audiobookrequest download orchestrator and
post-processing pipeline.  The definitions below are shallow embeddings of
the corresponding Python functions in
`app/internal/services/download_manager.py`,
`app/internal/processing/postprocess.py` and
`app/internal/clients/torrent/qbittorrent.py`.
-/

namespace ABR

/-- Python `a or b` for an optional string field of a dynamic dict, where the
empty string is falsy. -/
def pyOrStr (a : Option String) (b : String) : String :=
  match a with
  | some s => if s = "" then b else s
  | none => b

/-- Python `a or b` for an optional numeric field, where `0` is falsy. -/
def pyOrInt (a : Option Int) (b : Int) : Int :=
  match a with
  | some x => if x = 0 then b else x
  | none => b

/-- Python `a or b` for an optional float field, where `0.0` is falsy. -/
def pyOrRat (a : Option Rat) (b : Rat) : Rat :=
  match a with
  | some x => if x = 0 then b else x
  | none => b

/-- Truthiness of an optional string field (Python: `None` and `""` are falsy). -/
def pyTruthyStrOpt (o : Option String) : Bool :=
  match o with
  | some s => s ≠ ""
  | none => false

/-- ASCII lowering of one character, modelling Python `str.lower()` on the
ASCII state strings the torrent clients report. -/
def asciiLowerChar (c : Char) : Char :=
  if 65 ≤ c.toNat ∧ c.toNat ≤ 90 then Char.ofNat (c.toNat + 32) else c

/-- Python `s.lower()` for the ASCII strings handled here. -/
def asciiLower (s : String) : String :=
  String.mk (s.data.map asciiLowerChar)

/-- Character-level split used to model Python `str.split(sep)` for a
one-character separator. -/
def splitChar (sep : Char) : List Char → List (List Char)
  | [] => [[]]
  | c :: cs =>
    match splitChar sep cs with
    | [] => [[c]]
    | acc :: rest =>
      if c = sep then [] :: acc :: rest else (c :: acc) :: rest

/-- Python character slicing `s[n:]`. -/
def dropChars (s : String) (n : Nat) : String :=
  String.mk (s.data.drop n)

/-- Job lifecycle states of `DownloadJobStatus` as used by the orchestrator. -/
inductive DownloadJobStatus
  | pending
  | downloading
  | seeding
  | processing
  | completed
  | failed
  deriving DecidableEq, Repr

/-- Snapshot of the per-job retention policy (`TorrentSeedConfiguration`),
treated as an already-parsed record: the poll loop reads
`required_seed_seconds` and `ratio_limit` from `from_record`. -/
structure TorrentSeedConfiguration where
  required_seed_seconds : Nat
  ratio_limit : Option Rat
  deriving DecidableEq, Repr

/-- The fields of a `DownloadJob` row that the monitor loop reads and writes. -/
structure DownloadJob where
  status : DownloadJobStatus
  seed_seconds : Option Nat
  seed_configuration : Option TorrentSeedConfiguration
  destination_path : Option String
  message : String
  completed_at : Option Nat
  deriving DecidableEq, Repr

/-- The fields of a torrent-client info dict (`t_info`) read by `_poll_torrents`.
Absent dict keys are `none`. -/
structure TorrentInfo where
  seeding_time : Option Int
  secondsSeeding : Option Int
  state : Option String
  statusStr : Option String
  leftUntilDone : Option Int
  progress : Option Rat
  ratio : Option Rat
  uploadRatio : Option Rat
  deriving DecidableEq, Repr

/-- Clamp ceiling from `_poll_torrents`: `MAX_SEED_SECONDS = 365 * 24 * 3600`. -/
def MAX_SEED_SECONDS : Nat := 365 * 24 * 3600

/-- Clamping of a reported elapsed value:
`max(0, min(int(elapsed), MAX_SEED_SECONDS))`. -/
def clampElapsed (elapsed : Int) : Nat :=
  (max 0 (min elapsed (MAX_SEED_SECONDS : Int))).toNat

/-- Seed-seconds update of `_poll_torrents`:
`job.seed_seconds = job.seed_seconds or 0` followed by
`elapsed = t_info.get("seeding_time") or t_info.get("secondsSeeding") or 0` and
`job.seed_seconds = max(job.seed_seconds, clamped elapsed)`. -/
def updateSeedSeconds (old : Option Nat) (t : TorrentInfo) : Nat :=
  let o := old.getD 0
  let elapsed := pyOrInt t.seeding_time (pyOrInt t.secondsSeeding 0)
  max o (clampElapsed elapsed)

/-- State string of the snapshot:
`state = t_info.get("state") or t_info.get("status") or ""`. -/
def snapshotState (t : TorrentInfo) : String :=
  pyOrStr t.state (pyOrStr t.statusStr (""))

def inactive_downloading_states : List String :=
  ["pauseddl", "queueddl", "stalleddl", "checkingdl"]

def inactive_seeding_states : List String :=
  ["pausedup", "queuedup", "stalledup", "checkingup"]

def downloading_states : List String :=
  ["downloading", "forceddl", "metadl", "allocating"]

def uploading_states : List String :=
  ["uploading", "forcedup"]

/-- Auto-correction at the top of the poll loop body: a `failed` job whose
torrent is present in the client response is set back to `seeding`. -/
def autoCorrectFailed (j : DownloadJob) : DownloadJob :=
  if j.status = DownloadJobStatus.failed then
    { j with status := DownloadJobStatus.seeding }
  else j

/-- State-to-status mapping of `_poll_torrents` (only applied when the state
string is non-empty).  `clientCallOk` is the outcome of the best-effort
`resume`/`force_start` call performed in the inactive branches; `isQbit` is
`isinstance(self.torrent_client, QbitClient)`. -/
def applyStateMapping (j : DownloadJob) (t : TorrentInfo)
    (clientCallOk isQbit : Bool) : DownloadJob :=
  let state := snapshotState t
  if state = "" then j
  else
    let sl := asciiLower state
    if downloading_states.contains sl then
      { j with status := DownloadJobStatus.downloading,
               message := "qB state: " ++ state }
    else if uploading_states.contains sl then
      { j with status := DownloadJobStatus.seeding,
               message := "qB state: " ++ state }
    else if inactive_downloading_states.contains sl then
      if clientCallOk then
        { j with status := DownloadJobStatus.downloading,
                 message := "qB state: " ++ state ++ " (inactive) → resuming" }
      else
        { j with status := DownloadJobStatus.downloading,
                 message := "qB state: " ++ state ++ " (resume failed)" }
    else if inactive_seeding_states.contains sl then
      if isQbit then
        if clientCallOk then
          { j with status := DownloadJobStatus.seeding,
                   message := "qB state: force-started (was " ++ state ++ ")" }
        else
          { j with status := DownloadJobStatus.seeding,
                   message := "qB state: " ++ state ++ " (force-start failed)" }
      else
        if clientCallOk then
          { j with status := DownloadJobStatus.seeding,
                   message := "qB state: " ++ state ++ " (inactive) → force-starting" }
        else
          { j with status := DownloadJobStatus.seeding,
                   message := "qB state: " ++ state ++ " (force-start failed)" }
    else j

/-- Everything `_poll_torrents` does to one job before the `_job_lock` block:
auto-correction, seed-seconds update, state mapping. -/
def pollUpdatePhase (j : DownloadJob) (t : TorrentInfo)
    (clientCallOk isQbit : Bool) : DownloadJob :=
  let j1 := autoCorrectFailed j
  let j2 := { j1 with seed_seconds := some (updateSeedSeconds j1.seed_seconds t) }
  applyStateMapping j2 t clientCallOk isQbit

/-- Completion detection of `_poll_torrents`: `leftUntilDone == 0`, else
`progress >= 1.0`, overridden to true by uploading-family states. -/
def isDownloadedCalc (t : TorrentInfo) : Bool :=
  let base :=
    match t.leftUntilDone with
    | some l => l = 0
    | none =>
      match t.progress with
      | some p => (1 : Rat) ≤ p
      | none => false
  let sl := asciiLower (snapshotState t)
  if ["uploading", "forcedup", "pausedup", "stalledup"].contains sl then true
  else base

/-- Required seed seconds read from the job record (defaults to `0` when the
serialized configuration is absent). -/
def requiredSeedOf (j : DownloadJob) : Nat :=
  match j.seed_configuration with
  | some c => c.required_seed_seconds
  | none => 0

/-- Ratio floor read from the job record (`None` when absent). -/
def ratioLimitOf (j : DownloadJob) : Option Rat :=
  match j.seed_configuration with
  | some c => c.ratio_limit
  | none => none

/-- Current ratio of the snapshot:
`t_info.get("ratio") or t_info.get("uploadRatio") or 0`. -/
def currentRatioOf (t : TorrentInfo) : Rat :=
  pyOrRat t.ratio (pyOrRat t.uploadRatio 0)

/-- Retention check `meets_seed_time = required == 0 or seed_seconds >= required`
(evaluated on the already-updated job). -/
def meetsSeedTime (j : DownloadJob) : Bool :=
  requiredSeedOf j = 0 ∨ requiredSeedOf j ≤ j.seed_seconds.getD 0

/-- Retention check `meets_ratio = ratio_limit is None or current >= limit`. -/
def meetsRatio (j : DownloadJob) (t : TorrentInfo) : Bool :=
  match ratioLimitOf j with
  | none => true
  | some l => l ≤ currentRatioOf t

/-- Result of running the locked tail of the poll-loop body on one job. -/
structure PollOutcome where
  job : DownloadJob
  removeAttempted : Bool
  removeSucceeded : Bool
  startedFinalize : Bool
  deriving DecidableEq, Repr

/-- The `_job_lock` block of `_poll_torrents`: the retirement transition
(remove the torrent, and only on success mark `completed`), else the
processing trigger that spawns `_finalize_job`.  `removeOk` is whether the
`remove_torrent` call succeeds; `now` is `datetime.utcnow()`. -/
def pollLockPhase (j : DownloadJob) (t : TorrentInfo) (removeOk : Bool)
    (now : Nat) : PollOutcome :=
  if j.status = DownloadJobStatus.seeding ∧ pyTruthyStrOpt j.destination_path
      ∧ meetsSeedTime j ∧ meetsRatio j t then
    if removeOk then
      { job := { j with
          status := DownloadJobStatus.completed,
          message := "Seeded for " ++ toString (j.seed_seconds.getD 0 / 3600)
            ++ "h - completed",
          completed_at :=
            match j.completed_at with
            | none => some now
            | some x => some x },
        removeAttempted := true, removeSucceeded := true,
        startedFinalize := false }
    else
      { job := j, removeAttempted := true, removeSucceeded := false,
        startedFinalize := false }
  else if isDownloadedCalc t ∧ meetsSeedTime j ∧ meetsRatio j t
      ∧ j.status ≠ DownloadJobStatus.processing then
    { job := { j with
        status := DownloadJobStatus.processing,
        message := "Download complete, starting processing" },
      removeAttempted := false, removeSucceeded := false,
      startedFinalize := true }
  else
    { job := j, removeAttempted := false, removeSucceeded := false,
      startedFinalize := false }

/-- One full iteration of the `_poll_torrents` loop body for a job whose hash
is present in the client response. -/
def pollJobStep (j : DownloadJob) (t : TorrentInfo)
    (clientCallOk isQbit removeOk : Bool) (now : Nat) : PollOutcome :=
  pollLockPhase (pollUpdatePhase j t clientCallOk isQbit) t removeOk now

/-- Outcome of the guarded post-processing attempt inside `_finalize_job`:
`processor.process` returns a destination, times out at the 30-minute cap,
or raises. -/
inductive FinalizeResult
  | success (dest : String)
  | timeout
  | failure (errText : String)
  deriving DecidableEq, Repr

/-- The `try/except` tail of `_finalize_job`: how the job record is mutated
for each outcome of the post-processing attempt. -/
def finalizeApply (j : DownloadJob) (r : FinalizeResult) (now : Nat) :
    DownloadJob :=
  match r with
  | FinalizeResult.success d =>
    { j with
      status := DownloadJobStatus.seeding,
      destination_path := some d,
      message := "Processed -> " ++ d,
      completed_at := some now }
  | FinalizeResult.timeout =>
    { j with
      status := DownloadJobStatus.seeding,
      message := "Post-processing failed: Timed out after 30 minutes" }
  | FinalizeResult.failure e =>
    { j with
      status := DownloadJobStatus.seeding,
      message := "Post-processing failed: " ++ e }

/-- Selection filter of the orphan-finalization sweep
`_maybe_finalize_seeding`: jobs in `seeding` or `processing` whose
`destination_path` is NULL. -/
def sweepSelects (j : DownloadJob) : Bool :=
  (j.status = DownloadJobStatus.seeding
    ∨ j.status = DownloadJobStatus.processing)
  ∧ j.destination_path = none

/-! ### Attribute layout of `postprocess.py`

The class body of `PostProcessor` defines only `__init__` and `process`; the
helper methods from `_normalize` through `_download_cover` are indented inside
the `EbookPostProcessor` class body, `_cleanup_tmp` is a module-level
function, and a defensive attach block at module import time binds four
helpers onto `PostProcessor` if they are missing. -/

/-- Names defined directly in the `class PostProcessor` body. -/
def postProcessorClassAttrs : List String := ["__init__", "process"]

/-- Names defined inside the `class EbookPostProcessor` body (its own methods
plus every helper that is indented under it in the source file). -/
def ebookPostProcessorAttrs : List String :=
  ["__init__", "process", "_find_best_file", "_write_metadata",
   "_download_cover", "_normalize", "_find_source_fallback",
   "_gather_audio_files", "_find_audio_files_recursive", "_merge_with_ffmpeg",
   "_copy_any", "_copy_file", "_finalize_metadata", "_extract_metadata",
   "_write_metadata_file", "_apply_audio_metadata"]

/-- Module-level function definitions in `postprocess.py` (column zero). -/
def postprocessModuleAttrs : List String :=
  ["_sanitize_component", "_cleanup_tmp", "_pp_extract_metadata",
   "_pp_find_source_fallback", "_pp_gather_audio_files",
   "_pp_find_audio_files_recursive"]

/-- The `if not hasattr(...)` pattern of the defensive attach blocks. -/
def attachIfMissing (attrs : List String) (name : String) : List String :=
  if attrs.contains name then attrs else attrs ++ [name]

/-- Attributes bound on `PostProcessor` after the module-level attach blocks
run: the class body names, plus `_extract_metadata`, `_find_source_fallback`,
`_gather_audio_files` and `_find_audio_files_recursive`. -/
def postProcessorAttrs : List String :=
  attachIfMissing
    (attachIfMissing
      (attachIfMissing
        (attachIfMissing postProcessorClassAttrs ("_extract_metadata"))
        "_find_source_fallback")
      "_gather_audio_files")
    "_find_audio_files_recursive"

/-- Python attribute lookup `self.<name>` on a `PostProcessor` instance:
`AttributeError` when the name is not bound. -/
def callMethod (attrs : List String) (name : String) : Except String Unit :=
  if attrs.contains name then Except.ok ()
  else Except.error ("AttributeError: " ++ name)

/-- The continuation method that `PostProcessor.process` reaches first after
source resolution and audio-file gathering: `_copy_any` when no audio files
were found, `_copy_file` for a single file, `_merge_with_ffmpeg` when merging
is enabled and ffmpeg is available, else the `_copy_any` directory fallback. -/
def processContinuationCall (nAudio : Nat) (enableMerge ffmpegAvail : Bool) :
    String :=
  if nAudio = 0 then "_copy_any"
  else if nAudio = 1 then "_copy_file"
  else if enableMerge && ffmpegAvail then "_merge_with_ffmpeg"
  else "_copy_any"

/-- The full per-branch method-call tail of `PostProcessor.process` after the
audio files have been gathered. -/
def processAudioCalls (nAudio : Nat) (enableMerge ffmpegAvail : Bool) :
    List String :=
  if nAudio = 0 then ["_copy_any", "_cleanup_tmp"]
  else if nAudio = 1 then ["_copy_file", "_finalize_metadata", "_cleanup_tmp"]
  else if enableMerge && ffmpegAvail then
    ["_merge_with_ffmpeg", "_finalize_metadata", "_cleanup_tmp"]
  else ["_copy_any", "_finalize_metadata", "_cleanup_tmp"]

/-- Run a sequence of `self.<name>` method calls; a destination path is
returned only if every lookup succeeds. -/
def runCalls (attrs : List String) : List String → Except String String
  | [] => Except.ok ("destination")
  | m :: rest => (callMethod attrs m).bind (fun _ => runCalls attrs rest)

/-- Method-lookup trace of `PostProcessor.process` for an audiobook job whose
source path resolves: `_extract_metadata`, optionally
`_find_source_fallback`, `_gather_audio_files`, optionally
`_find_audio_files_recursive`, then the branch-dependent continuation. -/
def processAudio (needFallback needRecursive : Bool) (nAudio : Nat)
    (enableMerge ffmpegAvail : Bool) : Except String String :=
  runCalls postProcessorAttrs
    (["_extract_metadata"]
      ++ (if needFallback then ["_find_source_fallback"] else [])
      ++ ["_gather_audio_files"]
      ++ (if needRecursive then ["_find_audio_files_recursive"] else [])
      ++ processAudioCalls nAudio enableMerge ffmpegAvail)

/-! ### Audio tag derivation (`_pp_extract_metadata`, the definition the
attach block binds onto `PostProcessor`). -/

/-- The ffmpeg tag dictionary built by `_extract_metadata`. -/
structure FfmpegTags where
  title : String
  album : String
  artist : String
  album_artist : String
  composer : Option String
  deriving DecidableEq, Repr

/-- Python `", ".join(l)`. -/
def joinComma (l : List String) : String := String.intercalate (", ") l

/-- Tag derivation of `_pp_extract_metadata` from a request record:
`title = request.title or "Untitled"`, `authors = request.authors or
["Unknown Author"]`, `narrators = request.narrators or []`,
`primary_author = authors[0] if authors else ""`, and the tag dict uses
`artist = ", ".join(narrators or authors)`,
`album_artist = primary_author or ", ".join(authors)`,
`composer = ", ".join(narrators) if narrators else None`. -/
def extractTags (reqTitle : Option String) (reqAuthors reqNarrators : List String) :
    FfmpegTags :=
  let title := pyOrStr reqTitle ("Untitled")
  let authors := if reqAuthors.isEmpty then ["Unknown Author"] else reqAuthors
  let narrators := reqNarrators
  let primary_author :=
    match authors with
    | [] => ""
    | a :: _ => a
  { title := title
    album := title
    artist := joinComma (if narrators.isEmpty then authors else narrators)
    album_artist :=
      if primary_author = "" then joinComma authors else primary_author
    composer :=
      if narrators.isEmpty then none else some (joinComma narrators) }

/-! ### Concat-list generation of `_merge_with_ffmpeg` -/

/-- The single-quote character. -/
def squote : Char := Char.ofNat 39

/-- The backslash character. -/
def bslashChar : Char := Char.ofNat 92

/-- The newline character. -/
def nlChar : Char := Char.ofNat 10

/-- Python `path.replace("'", r"'\''")` at the character level: every single
quote becomes the four characters quote, backslash, quote, quote. -/
def escQ : List Char → List Char
  | [] => []
  | c :: cs =>
    if c = squote then squote :: bslashChar :: squote :: squote :: escQ cs
    else c :: escQ cs

/-- String wrapper for `escQ`. -/
def escapeQuotes (s : String) : String := String.mk (escQ s.data)

/-- One generated concat directive: `file '<escaped path>'` plus newline. -/
def concatLineFor (p : String) : String :=
  "file " ++ String.singleton squote ++ escapeQuotes p
    ++ String.singleton squote ++ "\n"

/-- Full contents of the generated ffmpeg concat list file. -/
def concatListContent (files : List String) : String :=
  String.join (files.map concatLineFor)

/-- Quoted-token reader modelling how the ffmpeg concat demuxer reads the
path of a `file` directive on one line: a single quote toggles literal mode,
and outside quotes a backslash escapes the next character.  `none` marks a
syntactically invalid token (unterminated quote or dangling backslash). -/
def unq : List Char → Bool → Option (List Char)
  | [], false => some []
  | [], true => none
  | c :: rest, false =>
    if c = squote then unq rest true
    else if c = bslashChar then
      match rest with
      | [] => none
      | d :: rest2 => (unq rest2 false).map (fun l => d :: l)
    else (unq rest false).map (fun l => c :: l)
  | c :: rest, true =>
    if c = squote then unq rest false
    else (unq rest true).map (fun l => c :: l)

/-- Parse one line of a concat list as a `file` directive. -/
def parseConcatLine (l : String) : Option String :=
  if ("file ".data).isPrefixOf l.data then
    (unq (l.data.drop 5) false).map String.mk
  else none

/-- Parse a whole concat list file: the external tool splits on newlines and
reads each non-empty line as a directive. -/
def parseConcatPaths (content : String) : Option (List String) :=
  (((splitChar nlChar content.data).map String.mk).filter
    (fun l => l ≠ "")).mapM parseConcatLine

/-- Observable steps of `_merge_with_ffmpeg`: it writes the concat list,
always invokes the external process, and raises only afterwards when the
process exits non-zero.  There is no rejection step before the invocation. -/
inductive MergeEvent
  | wroteList (content : String)
  | invokedProcess (content : String)
  | raisedError (msg : String)
  deriving DecidableEq, Repr

/-- Event trace of `_merge_with_ffmpeg` for a given input file list and
external-process exit code. -/
def mergeWithFfmpegTrace (files : List String) (returncode : Int) :
    List MergeEvent :=
  let content := concatListContent files
  [MergeEvent.wroteList content, MergeEvent.invokedProcess content]
    ++ (if returncode ≠ 0 then
          [MergeEvent.raisedError ("ffmpeg failed")]
        else [])

/-! ### Path remapping in `_finalize_job` -/

/-- Python `s.rstrip("/")`. -/
def rstripSlash (s : String) : String :=
  String.mk ((s.data.reverse.dropWhile (fun c => c = '/')).reverse)

/-- Python `s.lstrip("/")`. -/
def lstripSlash (s : String) : String :=
  String.mk (s.data.dropWhile (fun c => c = '/'))

/-- Python `s.startswith(pre)`. -/
def pyStartsWith (s pre : String) : Bool :=
  pre.data.isPrefixOf s.data

/-- Path components as computed by `pathlib.PurePosixPath`: split on slashes,
dropping empty and `.` segments. -/
def pathParts (s : String) : List String :=
  ((splitChar '/' s.data).map String.mk).filter (fun c => c ≠ "" ∧ c ≠ ".")

/-- Root of a POSIX path as kept by `pathlib`: exactly two leading slashes
are preserved, otherwise a single leading slash, otherwise no root. -/
def pathRoot (s : String) : String :=
  if pyStartsWith s ("//") ∧ ¬ pyStartsWith s ("///") then "//"
  else if pyStartsWith s ("/") then "/"
  else ""

/-- Slash-join of path components (`"/".join`), used to render `pathlib`
parts back to a string. -/
def joinParts : List String → String
  | [] => ""
  | [p] => p
  | p :: q :: rest => p ++ "/" ++ joinParts (q :: rest)

/-- String form of `PurePosixPath(a) / b` for a relative `b` (as produced by
`suffix.lstrip("/")`): root of `a` plus the normalized components of both,
with the empty path rendered as `.`. -/
def posixJoinStr (a b : String) : String :=
  let ps := pathParts a ++ pathParts b
  if pathRoot a = "" ∧ ps = [] then "." else pathRoot a ++ joinParts ps

/-- Normal form `str(PurePosixPath(s))` of a single path string. -/
def posixNorm (s : String) : String :=
  if pathRoot s = "" ∧ pathParts s = [] then "."
  else pathRoot s ++ joinParts (pathParts s)

/-- The remote-to-local path remapping block of `_finalize_job`: both
configured prefixes are right-stripped of slashes; when the reported download
directory is truthy, both prefixes are non-empty and the directory starts
with the remote one, the suffix after the remote prefix is left-stripped of
slashes and joined onto the local prefix with `pathlib`. -/
def remapDownloadDir (download_dir : Option String)
    (remoteCfg localCfg : String) : Option String :=
  match download_dir with
  | none => none
  | some d =>
    if d ≠ "" ∧ rstripSlash remoteCfg ≠ "" ∧ rstripSlash localCfg ≠ ""
        ∧ pyStartsWith d (rstripSlash remoteCfg) = true then
      some (posixJoinStr (rstripSlash localCfg)
        (lstripSlash
          (if rstripSlash remoteCfg ≠ "/" then
            dropChars d (rstripSlash remoteCfg).length
          else d)))
    else some d

/-! ### qBittorrent session-cookie cache (`QbitClient`) -/

/-- Cookie-cache key computed in `QbitClient.__init__`:
`self._cookie_key = self._base_url` where `_base_url = base_url.rstrip("/")`.
The credentials are not part of the key. -/
def cookieKey (base_url username password : String) : String :=
  rstripSlash base_url

/-- Store cookies in the class-level `_COOKIE_CACHE` under a key
(`_persist_cookies`). -/
def persistCookies (cache : List (String × String)) (key cookies : String) :
    List (String × String) :=
  (key, cookies) :: cache

/-- Lookup of `_COOKIE_CACHE.get(self._cookie_key)` (`_load_cached_cookies`);
a hit installs the cached session cookies and marks the client
authenticated. -/
def loadCachedCookies (cache : List (String × String)) (key : String) :
    Option String :=
  match cache.find? (fun kv => kv.fst = key) with
  | some kv => some kv.snd
  | none => none

/-! ## Helper lemmas -/

/-- The pre-lock update phase never touches `completed_at`. -/
theorem pollUpdatePhase_completed_at (j : DownloadJob) (t : TorrentInfo)
    (ck qb : Bool) :
    (pollUpdatePhase j t ck qb).completed_at = j.completed_at := by
  unfold pollUpdatePhase applyStateMapping autoCorrectFailed
  dsimp only
  split_ifs <;> rfl

/-- The pre-lock update phase never touches `destination_path`. -/
theorem pollUpdatePhase_destination (j : DownloadJob) (t : TorrentInfo)
    (ck qb : Bool) :
    (pollUpdatePhase j t ck qb).destination_path = j.destination_path := by
  unfold pollUpdatePhase applyStateMapping autoCorrectFailed
  dsimp only
  split_ifs <;> rfl

/-- The pre-lock update phase never produces the `completed` status on a job
that was not already `completed`. -/
theorem pollUpdatePhase_status_ne_completed (j : DownloadJob)
    (t : TorrentInfo) (ck qb : Bool)
    (h : j.status ≠ DownloadJobStatus.completed) :
    (pollUpdatePhase j t ck qb).status ≠ DownloadJobStatus.completed := by
  unfold pollUpdatePhase applyStateMapping autoCorrectFailed
  dsimp only
  split_ifs <;> simp_all

/-! ## Claim theorems -/

/-- C8: for any elapsed seeding value reported by the client, the clamped
value lies in `[0, 31536000]`; the stored `seed_seconds` is the maximum of
the previous value and the clamped report, hence monotonically non-decreasing
across successive polls and itself within the bound whenever the previous
value was. -/
theorem seed_seconds_clamped_and_monotone (old : Option Nat)
    (t : TorrentInfo) (h : old.getD 0 ≤ MAX_SEED_SECONDS) :
    (∀ e : Int, clampElapsed e ≤ MAX_SEED_SECONDS) ∧
    old.getD 0 ≤ updateSeedSeconds old t ∧
    updateSeedSeconds old t ≤ MAX_SEED_SECONDS := by
  have hc : ∀ e : Int, clampElapsed e ≤ MAX_SEED_SECONDS := by
    intro e
    unfold clampElapsed
    omega
  refine ⟨hc, ?_, ?_⟩
  · exact Nat.le_max_left _ _
  · exact Nat.max_le.mpr ⟨h, hc _⟩

/-- Concrete snapshot reporting a ten-thousand-year seeding time. -/
def c8Info : TorrentInfo :=
  { seeding_time := some 999999999999, secondsSeeding := none, state := none,
    statusStr := none, leftUntilDone := none, progress := none, ratio := none,
    uploadRatio := none }

/-- Witness for C8 at a previous value of 5 seconds and a corrupt elapsed
report. -/
theorem seed_seconds_clamped_and_monotone_witness :
    (some 5 : Option Nat).getD 0 ≤ MAX_SEED_SECONDS ∧
    clampElapsed 999999999999 ≤ MAX_SEED_SECONDS ∧
    (some 5 : Option Nat).getD 0 ≤ updateSeedSeconds (some 5) c8Info ∧
    updateSeedSeconds (some 5) c8Info ≤ MAX_SEED_SECONDS := by
  have h := seed_seconds_clamped_and_monotone (some 5) c8Info (by decide)
  exact ⟨by decide, h.1 999999999999, h.2.1, h.2.2⟩

/-- C2: every guarded finalization outcome leaves the job in `seeding`; on
success the destination is recorded in `destination_path` and the message, on
timeout or failure the message carries the failure text and
`destination_path` is untouched (in particular it remains unset). -/
theorem finalize_always_reverts_to_seeding (j : DownloadJob)
    (r : FinalizeResult) (now : Nat) :
    (finalizeApply j r now).status = DownloadJobStatus.seeding ∧
    (∀ d, r = FinalizeResult.success d →
      (finalizeApply j r now).destination_path = some d ∧
      (finalizeApply j r now).message = "Processed -> " ++ d) ∧
    (r = FinalizeResult.timeout →
      (finalizeApply j r now).message
        = "Post-processing failed: Timed out after 30 minutes" ∧
      (finalizeApply j r now).destination_path = j.destination_path) ∧
    (∀ e, r = FinalizeResult.failure e →
      (finalizeApply j r now).message = "Post-processing failed: " ++ e ∧
      (finalizeApply j r now).destination_path = j.destination_path) := by
  cases r <;> simp [finalizeApply]

/-- Concrete processing job with no destination yet. -/
def c2Job : DownloadJob :=
  { status := DownloadJobStatus.processing, seed_seconds := some 0,
    seed_configuration := none, destination_path := none, message := "",
    completed_at := none }

/-- Witness for C2: a failing finalization of a concrete job reverts to
`seeding`, records the failure text, and leaves the destination unset. -/
theorem finalize_always_reverts_to_seeding_witness :
    (finalizeApply c2Job (FinalizeResult.failure ("boom")) 5).status
      = DownloadJobStatus.seeding ∧
    (finalizeApply c2Job (FinalizeResult.failure ("boom")) 5).message
      = "Post-processing failed: boom" ∧
    (finalizeApply c2Job (FinalizeResult.failure ("boom")) 5).destination_path
      = none := by
  have h := finalize_always_reverts_to_seeding c2Job
    (FinalizeResult.failure ("boom")) 5
  refine ⟨h.1, (h.2.2.2 ("boom") rfl).1, ?_⟩
  rw [(h.2.2.2 ("boom") rfl).2]
  rfl

/-- Concrete job whose retention requirement (72 hours) is far from met. -/
def c3Job : DownloadJob :=
  { status := DownloadJobStatus.processing, seed_seconds := some 100,
    seed_configuration :=
      some { required_seed_seconds := 259200, ratio_limit := none },
    destination_path := none, message := "", completed_at := none }

/-- C3 counterexample: a successful finalization sets `completed_at` even
though the retention requirement (seed time 100 of 259200 seconds) is not
met, so `completed_at` is not reserved for the terminal state. -/
theorem finalize_sets_completed_at_before_retention :
    c3Job.seed_seconds.getD 0 < requiredSeedOf c3Job ∧
    (finalizeApply c3Job (FinalizeResult.success ("/library/Book")) 777).completed_at
      = some 777 := by decide

/-- C3 amended: `completed_at` is set by a successful finalization regardless
of retention, is untouched by failed finalizations, and is changed by the
poll cycle only in the successful-retirement transition (which does require
retention). -/
theorem completed_at_set_on_finalize_success_or_retirement (j : DownloadJob)
    (r : FinalizeResult) (now : Nat) (t : TorrentInfo) (ck qb rm : Bool)
    (now2 : Nat) :
    (∀ d, r = FinalizeResult.success d →
      (finalizeApply j r now).completed_at = some now) ∧
    ((∀ d, r ≠ FinalizeResult.success d) →
      (finalizeApply j r now).completed_at = j.completed_at) ∧
    ((pollJobStep j t ck qb rm now2).job.completed_at ≠ j.completed_at →
      (pollJobStep j t ck qb rm now2).removeSucceeded = true ∧
      (pollJobStep j t ck qb rm now2).job.status
        = DownloadJobStatus.completed) := by
  refine ⟨?_, ?_, ?_⟩
  · intro d hd; subst hd; rfl
  · intro hne
    cases r with
    | success d => exact absurd rfl (hne d)
    | timeout => rfl
    | failure e => rfl
  · intro hch
    have hup := pollUpdatePhase_completed_at j t ck qb
    unfold pollJobStep pollLockPhase at hch ⊢
    split_ifs at hch ⊢ with h1 h2
    · exact ⟨rfl, rfl⟩
    · exact absurd hup hch
    · exact absurd hup hch
    · exact absurd hup hch

/-- Witness for C3 amended at a concrete failing finalization and an idle
poll step. -/
theorem completed_at_set_on_finalize_success_or_retirement_witness :
    (finalizeApply c2Job FinalizeResult.timeout 9).completed_at
      = c2Job.completed_at := by
  have h := completed_at_set_on_finalize_success_or_retirement c2Job
    FinalizeResult.timeout 9 c8Info true true true 9
  exact h.2.1 (by intro d hd; cases hd)

/-- C5: the tag derivation actually bound on `PostProcessor` writes the
comma-joined narrators into `artist` (falling back to the authors only when
there are no narrators), contradicting the requirement that `artist` be the
primary author; `album`, `album_artist` and `composer` behave as specified. -/
theorem tags_artist_is_narrators_not_author :
    (extractTags (some ("Good Omens"))
        ["Terry Pratchett", "Neil Gaiman"] ["Martin Jarvis"]).artist
      = "Martin Jarvis" ∧
    (extractTags (some ("Good Omens"))
        ["Terry Pratchett", "Neil Gaiman"] ["Martin Jarvis"]).artist
      ≠ "Terry Pratchett" ∧
    (extractTags (some ("Good Omens"))
        ["Terry Pratchett", "Neil Gaiman"] ["Martin Jarvis"]).album
      = "Good Omens" ∧
    (extractTags (some ("Good Omens"))
        ["Terry Pratchett", "Neil Gaiman"] ["Martin Jarvis"]).album_artist
      = "Terry Pratchett" ∧
    (extractTags (some ("Good Omens"))
        ["Terry Pratchett", "Neil Gaiman"] ["Martin Jarvis"]).composer
      = some ("Martin Jarvis") := by decide

/-- C10: the session-cookie cache key is the base URL alone, so two clients
with the same URL but different credentials share one key, and the second
client observes the authentication state persisted by the first. -/
theorem cookie_cache_key_ignores_credentials :
    cookieKey ("http://localhost:8080") ("user1") ("pass1")
      = cookieKey ("http://localhost:8080") ("user2") ("pass2") ∧
    loadCachedCookies
      (persistCookies []
        (cookieKey ("http://localhost:8080") ("user1") ("pass1")) ("SID=abc"))
      (cookieKey ("http://localhost:8080") ("user2") ("pass2"))
      = some ("SID=abc") := by decide

/-- C1: the poll cycle marks a job `completed` only in the retirement branch
immediately after a successful `remove_torrent` call, and when the removal
raises, the locked block leaves the job record exactly as it stood before the
removal attempt (status, message and `completed_at` untouched), so retirement
is retried on the next cycle. -/
theorem poll_completed_requires_confirmed_removal (j : DownloadJob)
    (t : TorrentInfo) (ck qb rm : Bool) (now : Nat)
    (h : j.status ≠ DownloadJobStatus.completed) :
    ((pollJobStep j t ck qb rm now).job.status = DownloadJobStatus.completed →
      (pollJobStep j t ck qb rm now).removeAttempted = true ∧
      (pollJobStep j t ck qb rm now).removeSucceeded = true) ∧
    ((pollJobStep j t ck qb rm now).removeAttempted = true →
      (pollJobStep j t ck qb rm now).removeSucceeded = false →
      (pollJobStep j t ck qb rm now).job = pollUpdatePhase j t ck qb) := by
  have hs := pollUpdatePhase_status_ne_completed j t ck qb h
  unfold pollJobStep pollLockPhase
  split_ifs with h1 h2 h3 <;> dsimp only
  · refine ⟨fun _ => ⟨rfl, rfl⟩, fun _ hb => ?_⟩
    simp at hb
  · refine ⟨fun hc => ?_, fun _ _ => rfl⟩
    rw [h1.1] at hc
    simp at hc
  · refine ⟨fun hc => ?_, fun h4 _ => ?_⟩
    · simp at hc
    · simp at h4
  · refine ⟨fun hc => absurd hc hs, fun h4 _ => ?_⟩
    simp at h4

/-- Concrete job and snapshot used to witness C1. -/
def c1Job : DownloadJob :=
  { status := DownloadJobStatus.seeding, seed_seconds := some 1000,
    seed_configuration := none,
    destination_path := some ("/library/Done Book"), message := "",
    completed_at := none }

/-- Concrete uploading snapshot used to witness C1. -/
def c1Info : TorrentInfo :=
  { seeding_time := some 2000, secondsSeeding := none,
    state := some ("uploading"), statusStr := none, leftUntilDone := some 0,
    progress := none, ratio := none, uploadRatio := none }

/-- Witness for C1 at a retirement-eligible job whose removal call fails. -/
theorem poll_completed_requires_confirmed_removal_witness :
    ((pollJobStep c1Job c1Info true true false 3).job.status
        = DownloadJobStatus.completed →
      (pollJobStep c1Job c1Info true true false 3).removeAttempted = true ∧
      (pollJobStep c1Job c1Info true true false 3).removeSucceeded = true) ∧
    ((pollJobStep c1Job c1Info true true false 3).removeAttempted = true →
      (pollJobStep c1Job c1Info true true false 3).removeSucceeded = false →
      (pollJobStep c1Job c1Info true true false 3).job
        = pollUpdatePhase c1Job c1Info true true) :=
  poll_completed_requires_confirmed_removal c1Job c1Info true true false 3
    (by decide)

/-- Concrete job with a destination already set but a downloading status. -/
def c7Job : DownloadJob :=
  { status := DownloadJobStatus.downloading, seed_seconds := none,
    seed_configuration := none,
    destination_path := some ("/library/Existing Book"), message := "",
    completed_at := some 50 }

/-- Concrete snapshot in a downloading state with nothing left to fetch. -/
def c7Info : TorrentInfo :=
  { seeding_time := none, secondsSeeding := none,
    state := some ("downloading"), statusStr := none, leftUntilDone := some 0,
    progress := none, ratio := none, uploadRatio := none }

/-- C7 counterexample: the processing trigger of the poll cycle does not
check `destination_path`, so a job with a non-null destination that is not in
`seeding` status (here: `downloading` with `leftUntilDone == 0` and no
retention requirement) is sent to finalization again without any manual
reprocess. -/
theorem poll_refinalizes_job_with_destination :
    pyTruthyStrOpt c7Job.destination_path = true ∧
    (pollJobStep c7Job c7Info true true true 60).startedFinalize = true ∧
    (pollJobStep c7Job c7Info true true true 60).job.status
      = DownloadJobStatus.processing := by decide

/-- C7 amended: the orphan-finalization sweep never selects a job whose
`destination_path` is set, and the poll cycle never starts finalization for a
job that is in `seeding` status with a non-empty destination (the retirement
branch takes precedence); however the trigger checks only completion,
retention and `status != processing`, so a destination-bearing job in another
status can be re-finalized. -/
theorem no_refinalize_for_seeding_job_with_destination (j : DownloadJob)
    (t : TorrentInfo) (ck qb rm : Bool) (now : Nat)
    (hdest : j.destination_path.isSome = true) :
    sweepSelects j = false ∧
    ((pollUpdatePhase j t ck qb).status = DownloadJobStatus.seeding →
      pyTruthyStrOpt j.destination_path = true →
      (pollJobStep j t ck qb rm now).startedFinalize = false) := by
  constructor
  · cases hd : j.destination_path with
    | none => rw [hd] at hdest; cases hdest
    | some s => simp [sweepSelects, hd]
  · intro hst htr
    have hdd := pollUpdatePhase_destination j t ck qb
    unfold pollJobStep pollLockPhase
    split_ifs with h1 h2 h3
    · rfl
    · rfl
    · exact absurd ⟨hst, by rw [hdd]; exact htr, h3.2.1, h3.2.2.1⟩ h1
    · rfl

/-- Concrete seeding job with a destination, witnessing C7 amended. -/
def c7wJob : DownloadJob :=
  { status := DownloadJobStatus.seeding, seed_seconds := some 0,
    seed_configuration := none, destination_path := some ("/library/Done"),
    message := "", completed_at := none }

/-- Witness for C7 amended at a seeding job with a destination set. -/
theorem no_refinalize_for_seeding_job_with_destination_witness :
    sweepSelects c7wJob = false ∧
    (pollJobStep c7wJob c1Info true true false 3).startedFinalize = false := by
  have h := no_refinalize_for_seeding_job_with_destination c7wJob c1Info
    true true false 3 (by decide)
  exact ⟨h.1, h.2 (by decide) (by decide)⟩

/-- C4: after the module-level attach blocks, `PostProcessor` carries exactly
its two class-body names plus the four defensively attached helpers; the five
continuation helpers are bound only on `EbookPostProcessor` or at module
level; every continuation branch of the audiobook `process` first accesses an
attribute that is not bound on `PostProcessor`, so the method-lookup trace
always raises and a destination is never returned. -/
theorem audiobook_process_always_raises (needFallback needRecursive : Bool)
    (nAudio : Nat) (enableMerge ffmpegAvail : Bool) :
    postProcessorAttrs
      = ["__init__", "process", "_extract_metadata", "_find_source_fallback",
         "_gather_audio_files", "_find_audio_files_recursive"] ∧
    (["_copy_any", "_copy_file", "_merge_with_ffmpeg", "_finalize_metadata",
      "_cleanup_tmp"].all
        (fun m => !(postProcessorAttrs.contains m)
          && (ebookPostProcessorAttrs.contains m
              || postprocessModuleAttrs.contains m))) = true ∧
    postProcessorAttrs.contains
      (processContinuationCall nAudio enableMerge ffmpegAvail) = false ∧
    (processAudio needFallback needRecursive nAudio enableMerge
        ffmpegAvail).isOk = false := by
  refine ⟨by decide, by decide, ?_, ?_⟩
  · unfold processContinuationCall
    split_ifs <;> decide
  · unfold processAudio processAudioCalls
    cases needFallback <;> cases needRecursive <;> split_ifs <;> decide

/-- Unfolding step of `escQ` on a non-quote character. -/
theorem escQ_cons_other (c : Char) (cs : List Char) (h : c ≠ squote) :
    escQ (c :: cs) = c :: escQ cs := by
  show (if c = squote then squote :: bslashChar :: squote :: squote :: escQ cs
    else c :: escQ cs) = c :: escQ cs
  rw [if_neg h]

/-- Unfolding step of `unq`: a quote while inside a quoted run closes it. -/
theorem unq_cons_true_quote (rest : List Char) :
    unq (squote :: rest) true = unq rest false := rfl

/-- Unfolding step of `unq`: an ordinary character inside a quoted run is
taken literally. -/
theorem unq_cons_true_other (c : Char) (rest : List Char) (h : c ≠ squote) :
    unq (c :: rest) true = (unq rest true).map (fun l => c :: l) := by
  show (if c = squote then unq rest false
    else (unq rest true).map (fun l => c :: l)) = _
  rw [if_neg h]

/-- Unfolding step of `unq`: a quote outside a quoted run opens one. -/
theorem unq_cons_false_quote (rest : List Char) :
    unq (squote :: rest) false = unq rest true := by
  cases rest <;> rfl

/-- Unfolding step of `unq`: a backslash outside a quoted run escapes the
next character. -/
theorem unq_cons_false_bslash (d : Char) (rest : List Char) :
    unq (bslashChar :: d :: rest) false
      = (unq rest false).map (fun l => d :: l) := rfl

/-- Unquoting an escaped path inside an open quote consumes exactly the
escaped characters and returns to the outside-quote state. -/
theorem unq_escQ (p rest : List Char) :
    unq (escQ p ++ squote :: rest) true
      = (unq rest false).map (fun l => p ++ l) := by
  induction p with
  | nil =>
    rw [show escQ [] = [] from rfl, List.nil_append, unq_cons_true_quote]
    cases unq rest false <;> rfl
  | cons c cs ih =>
    by_cases hc : c = squote
    · subst hc
      rw [show escQ (squote :: cs)
          = squote :: bslashChar :: squote :: squote :: escQ cs from rfl]
      simp only [List.cons_append]
      rw [unq_cons_true_quote, unq_cons_false_bslash, unq_cons_false_quote,
        ih, Option.map_map]
      cases unq rest false <;> rfl
    · rw [escQ_cons_other c cs hc]
      simp only [List.cons_append]
      rw [unq_cons_true_other c _ hc, ih, Option.map_map]
      cases unq rest false <;> rfl

/-- Concrete filename containing a newline, from the repository test suite. -/
def c6Bad : String := "file\nmalicious.mp3"

/-- C6: the quoted entry generated for any filename reads back as exactly
that filename under the quote/escape rules of the external tool (each single
quote is escaped); but a filename containing a newline is not rejected — the
directive is written with the raw newline, the external process is still
invoked, and the written list no longer parses as the intended single
entry. -/
theorem concat_escapes_quotes_but_newline_not_rejected (p : String) :
    unq (squote :: (escQ p.data ++ [squote])) false = some p.data ∧
    mergeWithFfmpegTrace [c6Bad] 0
      = [MergeEvent.wroteList (concatListContent [c6Bad]),
         MergeEvent.invokedProcess (concatListContent [c6Bad])] ∧
    parseConcatPaths (concatListContent [c6Bad]) = none := by
  refine ⟨?_, by decide, by decide⟩
  rw [unq_cons_false_quote]
  have h := unq_escQ p.data []
  rw [show unq ([] : List Char) false = some [] from rfl] at h
  simpa using h

/-- A string is a Python-style prefix of itself followed by anything. -/
theorem pyStartsWith_append (a b : String) : pyStartsWith (a ++ b) a = true := by
  unfold pyStartsWith
  rw [String.data_append, List.isPrefixOf_iff_prefix]
  exact List.prefix_append _ _

/-- Reflexivity of the Python-style prefix test. -/
theorem pyStartsWith_refl (s : String) : pyStartsWith s s = true := by
  unfold pyStartsWith
  rw [List.isPrefixOf_iff_prefix]

/-- Distributing the slash-join over an append with non-empty sides. -/
theorem joinParts_cons_append (p : String) (rest : List String) (b : String)
    (B : List String) :
    joinParts ((p :: rest) ++ b :: B)
      = joinParts (p :: rest) ++ "/" ++ joinParts (b :: B) := by
  induction rest generalizing p with
  | nil => rfl
  | cons q qs ih =>
    rw [show (p :: q :: qs) ++ b :: B = p :: ((q :: qs) ++ b :: B) from rfl]
    rw [show joinParts (p :: ((q :: qs) ++ b :: B))
        = p ++ "/" ++ joinParts ((q :: qs) ++ b :: B) from rfl]
    rw [ih q]
    rw [show joinParts (p :: q :: qs) = p ++ "/" ++ joinParts (q :: qs)
      from rfl]
    simp [String.append_assoc]

/-- When the local path is already in `pathlib` normal form (and is not the
bare dot path), joining any relative suffix onto it yields a string that
starts with it. -/
theorem posixJoinStr_startsWith (lp b : String)
    (hnorm : posixNorm lp = lp) (hdot : lp ≠ ".") :
    pyStartsWith (posixJoinStr lp b) lp = true := by
  unfold posixNorm at hnorm
  by_cases h0 : pathRoot lp = "" ∧ pathParts lp = []
  · rw [if_pos h0] at hnorm
    exact absurd hnorm.symm hdot
  · rw [if_neg h0] at hnorm
    unfold posixJoinStr
    by_cases h1 : pathRoot lp = "" ∧ pathParts lp ++ pathParts b = []
    · exact absurd ⟨h1.1, (List.append_eq_nil.mp h1.2).1⟩ h0
    · rw [if_neg h1]
      cases hb : pathParts b with
      | nil =>
        rw [List.append_nil, hnorm]
        exact pyStartsWith_refl _
      | cons pb pbs =>
        cases hp : pathParts lp with
        | nil =>
          have hr2 : pathRoot lp = lp := by
            refine Eq.trans ?_ hnorm
            rw [hp]
            exact (String.ext (by rw [String.data_append]; simp [joinParts])).symm
          rw [List.nil_append, hr2]
          exact pyStartsWith_append _ _
        | cons pl pls =>
          rw [hp] at hnorm
          have e1 : pathRoot lp ++ joinParts ((pl :: pls) ++ pb :: pbs)
              = (pathRoot lp ++ joinParts (pl :: pls))
                ++ ("/" ++ joinParts (pb :: pbs)) := by
            rw [joinParts_cons_append]
            simp [String.append_assoc]
          rw [e1, hnorm]
          exact pyStartsWith_append _ _

/-- C9 counterexample: with the non-normalized configured local path
`"/a//b"`, the `pathlib` join collapses the duplicate slash, so the remapped
directory `"/a/b/X"` does not start with the configured local path; the
concrete scenario of the claim itself does hold. -/
theorem remap_result_not_extending_raw_localPfx :
    remapDownloadDir (some ("/r/X")) ("/r") ("/a//b") = some ("/a/b/X") ∧
    pyStartsWith ("/a/b/X") ("/a//b") = false ∧
    remapDownloadDir (some ("/remote/Books/X")) ("/remote") ("/local")
      = some ("/local/Books/X") := by decide

/-- C9 amended: for a truthy reported directory, non-empty stripped prefixes,
a directory starting with the remote one, and a local path that is already in
`pathlib` normal form (and not `.`), the remapped path starts with the local
path. -/
theorem remap_result_extends_normalized_localPfx (d rcfg lcfg : String)
    (hd : d ≠ "") (hr : rstripSlash rcfg ≠ "") (hl : rstripSlash lcfg ≠ "")
    (hsw : pyStartsWith d (rstripSlash rcfg) = true)
    (hnorm : posixNorm (rstripSlash lcfg) = rstripSlash lcfg)
    (hdot : rstripSlash lcfg ≠ ".") :
    ∃ m, remapDownloadDir (some d) rcfg lcfg = some m ∧
      pyStartsWith m (rstripSlash lcfg) = true := by
  simp only [remapDownloadDir]
  rw [if_pos ⟨hd, hr, hl, hsw⟩]
  exact ⟨_, rfl, posixJoinStr_startsWith _ _ hnorm hdot⟩

/-- Witness for C9 amended at the concrete scenario of the claim. -/
theorem remap_result_extends_normalized_localPfx_witness :
    ∃ m, remapDownloadDir (some ("/remote/Books/X")) ("/remote") ("/local")
        = some m ∧
      pyStartsWith m (rstripSlash ("/local")) = true :=
  remap_result_extends_normalized_localPfx ("/remote/Books/X") ("/remote")
    ("/local") (by decide) (by decide) (by decide) (by decide) (by decide)
    (by decide)

end ABR
